import Mathlib

/-!
Verification development for the Webex OAuth integration sample.

The repository contains three near-duplicate Express servers:
server.js (request-library based, no session middleware),
part_000 (node-fetch based, express-session, Redis store) and
part_001 (request-library based, express-session).

This file gives a shallow embedding of the route handlers those servers
install, at the level of one inbound request: a handler is a pure function
from the request (query parameters, session token) and the responses the
outside world would give to its outbound HTTP calls, to a record of the
outbound calls it issued, the response it sent, and the session state it
left behind.  JavaScript values reached through JSON parsing are modelled
by the inductive JsVal, with truthiness and string coercion as in the
source language.  An uncaught exception escaping a handler is modelled by
the Response.thrown outcome.

Definitions prefixed P1 embed part_001, definitions prefixed P0 embed
part_000; the logout route is byte-identical in part_000 and part_001 and
is embedded once as logoutHandler.  server.js shares the /oauth logic of
part_001 verbatim (it has no session), so P1.oauthHandler covers both,
with the session component meaningful only for part_001.
-/

/-- JavaScript values as they occur in this program: query parameters,
JSON-parsed response payloads and session fields. -/
inductive JsVal where
  | vundef
  | vnull
  | vbool (b : Bool)
  | vnum (n : Int)
  | vstr (s : String)
  | vobj (fields : List (String × JsVal))

/-- Property lookup in the field list of a parsed JSON object; an absent
key reads as undefined. -/
def getField : List (String × JsVal) → String → JsVal
  | [], _ => JsVal.vundef
  | (k, v) :: rest, key => if k = key then v else getField rest key

/-- Total property access v.key, used in the model only at sites where
the source guards the access with a preceding falsiness check on the
base (the short-circuit in checks of the shape !json || !json.field), so
the base there is never null or undefined; on a truthy primitive the
access yields undefined, as boxing does in JavaScript. -/
def JsVal.get : JsVal → String → JsVal
  | JsVal.vobj fields, key => getField fields key
  | _, _ => JsVal.vundef

/-- Fallible property access v.key, used in the model at sites where the
source reads a property with no guard on the base: in JavaScript the
access throws a TypeError when the base is null or undefined (none), and
otherwise yields the property value, undefined included (some). -/
def JsVal.getProp : JsVal → String → Option JsVal
  | JsVal.vundef, _ => none
  | JsVal.vnull, _ => none
  | JsVal.vobj fields, key => some (getField fields key)
  | _, _ => some JsVal.vundef

/-- JavaScript truthiness, used by every if (x) and !x in the source. -/
def JsVal.truthy : JsVal → Bool
  | JsVal.vundef => false
  | JsVal.vnull => false
  | JsVal.vbool b => b
  | JsVal.vnum n => n != 0
  | JsVal.vstr s => s != ""
  | JsVal.vobj _ => true

/-- String coercion as performed by the JavaScript + concatenation
operator on the values this program concatenates. -/
def JsVal.jsToString : JsVal → String
  | JsVal.vundef => "undefined"
  | JsVal.vnull => "null"
  | JsVal.vbool true => "true"
  | JsVal.vbool false => "false"
  | JsVal.vnum n => toString n
  | JsVal.vstr s => s
  | JsVal.vobj _ => "[object Object]"

/-- Strict comparison x === undefined. -/
def JsVal.strictUndef : JsVal → Bool
  | JsVal.vundef => true
  | _ => false

/-- Loose comparison x == undefined, true for undefined and null. -/
def JsVal.looseUndef : JsVal → Bool
  | JsVal.vundef => true
  | JsVal.vnull => true
  | _ => false

/-- Truthiness of an Express query parameter, which is either absent
(undefined) or a string. -/
def qtruthy : Option String → Bool
  | none => false
  | some s => s != ""

/-- Static configuration loaded at startup: client credentials, redirect
URI and the process-wide expected state value. -/
structure Config where
  clientId : String
  clientSecret : String
  redirectURI : String
  state : String

/-- The query parameters of a callback request to /oauth. -/
structure Query where
  error : Option String
  code : Option String
  state : Option String

/-- The body of an HTTP response as seen through JSON.parse or
response.json(): either it fails to parse (the call throws) or it yields
a JavaScript value. -/
inductive Body where
  | notJSON
  | json (v : JsVal)

/-- The outcome of one outbound HTTP call: a transport-level failure
(the request library reports an error, or fetch rejects), or a response
with a status code and a body. -/
inductive FetchResult where
  | transportError
  | ok (statusCode : Nat) (body : Body)

/-- The user-visible outcome of a handler: a literal HTML string sent
with res.send, a page rendered from an EJS template with the given data,
an HTTP redirect, or an uncaught exception escaping the handler. -/
inductive Response where
  | send (html : String)
  | render (template : String) (data : JsVal)
  | redirect (url : String)
  | thrown

/-- True exactly for the redirect outcome. -/
def Response.isRedirect : Response → Bool
  | Response.redirect _ => true
  | _ => false

/-- Whether pat occurs as a contiguous run inside the character list;
used to state that a URL does not contain a given query parameter. -/
def containsRun (pat : List Char) : List Char → Bool
  | [] => pat.isEmpty
  | a :: rest => List.isPrefixOf pat (a :: rest) || containsRun pat rest

/-- An outbound bearer-authenticated GET as built by the handlers. -/
structure GetRequest where
  url : String
  bearer : String

/-- The form body of the POST to the token endpoint. -/
structure ExchangeForm where
  grant_type : String
  client_id : String
  client_secret : String
  code : String
  redirect_uri : String

/-- Result of one run of an /oauth handler: the token-endpoint POST it
issued (if any), the /people/me GET it issued (if any), the response it
sent, and the value of the session token field afterwards. -/
structure OauthResult where
  exchangeCall : Option ExchangeForm
  profileCall : Option GetRequest
  response : Response
  sessionToken : JsVal

/-- A handler turn that sends a response, issues no outbound call and
leaves the session untouched (a res.send followed by return). -/
def noCall (resp : Response) (sess : JsVal) : OauthResult :=
  { exchangeCall := none, profileCall := none, response := resp, sessionToken := sess }

/-! Literal pages and URLs from the source. -/

def accessDeniedPage : String :=
  "<h1>OAuth Integration could not complete</h1><p>User declined data access request, bye.</p>"

def invalidScopePage : String :=
  "<h1>OAuth Integration could not complete</h1><p>This application requested an invalid scope. Make sure your Integration contains all scopes being requested by the app, bye.</p>"

def serverErrorPage : String :=
  "<h1>OAuth Integration could not complete</h1><p>Webex sent a server error, bye.</p>"

def unknownErrorPage : String :=
  "<h1>OAuth Integration could not complete</h1><p>Error case not implemented, bye.</p>"

def missingParamsPage : String :=
  "<h1>OAuth Integration could not complete</h1><p>Unexpected query parameters, ignoring...</p>"

def stateMismatchPage : String :=
  "<h1>OAuth Integration could not complete</h1><p>State in response does does not match the one in the request, aborting...</p>"

def tokenFetchErrorPage : String :=
  "<h1>OAuth Integration could not complete</h1><p>Sorry, could not retrieve your access token. Try again...</p>"

def badRequestPage (msg : String) : String :=
  "<h1>OAuth Integration could not complete</h1><p>Bad request. <br/>" ++ msg ++ "</p>"

def authErrorPage : String :=
  "<h1>OAuth Integration could not complete</h1><p>OAuth authentication error. Ask the service contact to check the secret.</p>"

def couldNotParsePage : String :=
  "<h1>OAuth Integration could not complete</h1><p>Could not parse API access token. Try again...</p>"

def accountDetailsPage : String :=
  "<h1>OAuth Integration could not complete</h1><p>Sorry, could not retrieve your Webex account details.</p>"

def roomsParsePage : String :=
  "<h1>OAuth Integration could not complete</h1><p>Sorry, could not retrieve your Webex rooms.</p>"

def tokenURL : String := "https://webexapis.com/v1/access_token"

def peopleURL : String := "https://webexapis.com/v1/people/me"

def roomsURL : String := "https://webexapis.com/v1/rooms"

def logoutBase : String := "https://idbroker.webex.com/idb/oauth2/v1/logout?token="

/-- The hard-coded authorization URL of part_000 (line 45), with the state
value concatenated at the end. -/
def P0.initiateURL (state : String) : String :=
  "https://webexapis.com/v1/authorize?client_id=C97c955d459b1195dd914456c56d7193b3b9db2f96e55226d1bb875c6dc40c16a&response_type=code&redirect_uri=http%3A%2F%2Flocalhost%3A8080%2Foauth&scope=spark%3Akms%20spark%3Apeople_read%20spark%3Arooms_read&state=" ++ state

/-- The hard-coded authorization URL of part_001 (line 61), with the state
value concatenated at the end. -/
def P1.initiateURL (state : String) : String :=
  "https://webexapis.com/v1/authorize?client_id=C909b987b64167258774e532d595702ef864a35f7614678dbe4046056daf67d63&response_type=code&redirect_uri=http%3A%2F%2Flocalhost%3A8080%2Foauth&scope=spark%3Akms%20spark%3Apeople_read%20spark%3Arooms_read%20spark%3Arooms_write&state=" ++ state

/-- getUserInfo from part_001 (lines 312 to 365): issues a bearer GET to
/people/me; a transport error or a non-200 status sends the account
details error page; a 200 body that does not parse throws out of the
callback; a parsed body that is falsy or lacks a truthy displayName sends
the same error page; otherwise renders display-name.ejs with the
displayName value. -/
def P1.getUserInfo (access_token : JsVal) (pResp : FetchResult) : GetRequest × Response :=
  ({ url := peopleURL, bearer := "Bearer " ++ access_token.jsToString },
    match pResp with
    | FetchResult.transportError => Response.send accountDetailsPage
    | FetchResult.ok status body =>
        if status ≠ 200 then Response.send accountDetailsPage
        else
          match body with
          | Body.notJSON => Response.thrown
          | Body.json json =>
              if !json.truthy || !(json.get "displayName").truthy then
                Response.send accountDetailsPage
              else Response.render "display-name.ejs" (json.get "displayName"))

/-- The response callback of the token-exchange POST in part_001 (lines
245 to 302), identical in server.js (lines 117 to 155 except that
server.js has no session).  Takes the session token before the call and
the responses of the exchange POST and of the subsequent /people/me GET;
returns the response sent, the session token afterwards, and the
/people/me call if one was made.  In the 400 branch the source reads
responsePayload.message with no guard on responsePayload, so a body
parsing to JSON null makes the access throw an uncaught TypeError,
modelled through JsVal.getProp. -/
def P1.exchangeCallback (sess : JsVal) (exResp pResp : FetchResult) :
    Response × JsVal × Option GetRequest :=
  match exResp with
  | FetchResult.transportError => (Response.send tokenFetchErrorPage, sess, none)
  | FetchResult.ok status body =>
      if status ≠ 200 then
        if status = 400 then
          match body with
          | Body.notJSON => (Response.thrown, sess, none)
          | Body.json payload =>
              match payload.getProp "message" with
              | none => (Response.thrown, sess, none)
              | some m => (Response.send (badRequestPage m.jsToString), sess, none)
        else if status = 401 then (Response.send authErrorPage, sess, none)
        else (Response.send tokenFetchErrorPage, sess, none)
      else
        match body with
        | Body.notJSON => (Response.thrown, sess, none)
        | Body.json json =>
            if !json.truthy || !(json.get "access_token").truthy
                || !(json.get "expires_in").truthy || !(json.get "refresh_token").truthy
                || !(json.get "refresh_token_expires_in").truthy then
              (Response.send couldNotParsePage, sess, none)
            else
              let tok := json.get "access_token"
              let gu := P1.getUserInfo tok pResp
              (gu.2, tok, some gu.1)

/-- app.get("/oauth") from part_001 (lines 170 to 303), identical logic in
server.js (lines 53 to 156): classify a truthy error parameter into four
pages; reject a falsy code or state parameter; reject a state parameter
different from the process-wide expected state; otherwise POST the
authorization-code form to the token endpoint and hand the response to
the exchange callback. -/
def P1.oauthHandler (cfg : Config) (q : Query) (sess : JsVal)
    (exResp pResp : FetchResult) : OauthResult :=
  if qtruthy q.error then
    if q.error = some "access_denied" then noCall (Response.send accessDeniedPage) sess
    else if q.error = some "invalid_scope" then noCall (Response.send invalidScopePage) sess
    else if q.error = some "server_error" then noCall (Response.send serverErrorPage) sess
    else noCall (Response.send unknownErrorPage) sess
  else if !qtruthy q.code || !qtruthy q.state then
    noCall (Response.send missingParamsPage) sess
  else if q.state ≠ some cfg.state then
    noCall (Response.send stateMismatchPage) sess
  else
    let form : ExchangeForm :=
      { grant_type := "authorization_code", client_id := cfg.clientId,
        client_secret := cfg.clientSecret, code := q.code.getD "",
        redirect_uri := cfg.redirectURI }
    let cb := P1.exchangeCallback sess exResp pResp
    { exchangeCall := some form, profileCall := cb.2.2,
      response := cb.1, sessionToken := cb.2.1 }

/-- Result of one run of a /listrooms handler in part_001: the console
line it logs, the rooms GET it issues, and the response it sends. -/
structure RoomsResult where
  log : String
  call : Option GetRequest
  response : Response

/-- app.get("/listrooms") from part_001 (lines 97 to 157).  The handler
reads the session token, logs one of two messages (note the source has
the two messages swapped: it logs that a token is available exactly when
the token is undefined), then unconditionally issues the rooms GET with
the token concatenated into the bearer header and processes the
response; it never redirects. -/
def P1.listroomsHandler (sessToken : JsVal) (resp : FetchResult) : RoomsResult :=
  { log :=
      if sessToken.strictUndef then "session token available: " ++ sessToken.jsToString
      else "Access token not in session variable " ++ sessToken.jsToString,
    call := some { url := roomsURL, bearer := "Bearer " ++ sessToken.jsToString },
    response :=
      match resp with
      | FetchResult.transportError => Response.send accountDetailsPage
      | FetchResult.ok status body =>
          if status ≠ 200 then Response.send accountDetailsPage
          else
            match body with
            | Body.notJSON => Response.thrown
            | Body.json json =>
                if !json.truthy || !(json.get "items").truthy then
                  Response.send roomsParsePage
                else Response.render "list-rooms.ejs" (json.get "items") }

/-- Result of one run of the /logout handler: the console line, the
redirect URL sent to the user agent, and whether the session was
destroyed. -/
structure LogoutResult where
  log : String
  redirect : String
  destroyed : Bool

/-- app.get("/logout"), byte-identical in part_000 (lines 248 to 255) and
part_001 (lines 88 to 95): computes the root URL by stripping the last
five characters off the redirect URI but only logs it, redirects the user
agent to the fixed logout endpoint with the raw session token
concatenated after token=, and destroys the session unconditionally. -/
def logoutHandler (cfg : Config) (sessToken : JsVal) : LogoutResult :=
  let rootURL := cfg.redirectURI.take (cfg.redirectURI.length - 5)
  { log := "rootURL is " ++ rootURL,
    redirect := logoutBase ++ sessToken.jsToString,
    destroyed := true }

/-- Result of a handler that only logs and sends one response. -/
structure PageResult where
  log : String
  response : Response

/-- app.get("/index.html") from part_000 (lines 86 to 100): reads the
session token and logs one of two messages depending on it, then always
sends the page compiled once at startup from index.ejs with the
authorization link injected. -/
def P0.indexHandler (state : String) (sessToken : JsVal) : PageResult :=
  { log :=
      if !sessToken.looseUndef then "session token available: " ++ sessToken.jsToString
      else "Access token not in session variable, redirecting to home page",
    response := Response.render "index.ejs" (JsVal.vstr (P0.initiateURL state)) }

/-- app.get("/") from part_000 (lines 101 to 103): a redirect to
/index.html for every request. -/
def P0.rootResponse : Response := Response.redirect "/index.html"

/-- app.get("/index.html") from part_001 (lines 79 to 82): always sends
the page compiled once at startup from index.ejs. -/
def P1.indexResponse (state : String) : Response :=
  Response.render "index.ejs" (JsVal.vstr (P1.initiateURL state))

/-- app.get("/") from part_001 (lines 83 to 85). -/
def P1.rootResponse : Response := Response.redirect "/index.html"

/-- getUserInfo from part_000 (lines 351 to 405), the node-fetch variant:
a rejected fetch or an unparseable body throws out of the async function;
otherwise the display-name template is rendered with data.displayName
with no status check and no field check; the unguarded access throws
when data is null. -/
def P0.getUserInfo (access_token : JsVal) (pResp : FetchResult) : GetRequest × Response :=
  ({ url := peopleURL, bearer := "Bearer " ++ access_token.jsToString },
    match pResp with
    | FetchResult.transportError => Response.thrown
    | FetchResult.ok _ Body.notJSON => Response.thrown
    | FetchResult.ok _ (Body.json data) =>
        match data.getProp "displayName" with
        | none => Response.thrown
        | some dn => Response.render "display-name.ejs" dn)

/-- app.get("/oauth") from part_000 (lines 110 to 244), the node-fetch
variant.  The three precondition checks are identical to part_001, but
the response handling that the request-library variants perform is
commented out in the source: a rejected fetch or an unparseable body
throws out of the async handler, and otherwise data.access_token is
bound to the session with no status check and no required-field check,
after which getUserInfo runs; the unguarded access throws when data is
null. -/
def P0.oauthHandler (cfg : Config) (q : Query) (sess : JsVal)
    (exResp pResp : FetchResult) : OauthResult :=
  if qtruthy q.error then
    if q.error = some "access_denied" then noCall (Response.send accessDeniedPage) sess
    else if q.error = some "invalid_scope" then noCall (Response.send invalidScopePage) sess
    else if q.error = some "server_error" then noCall (Response.send serverErrorPage) sess
    else noCall (Response.send unknownErrorPage) sess
  else if !qtruthy q.code || !qtruthy q.state then
    noCall (Response.send missingParamsPage) sess
  else if q.state ≠ some cfg.state then
    noCall (Response.send stateMismatchPage) sess
  else
    let form : ExchangeForm :=
      { grant_type := "authorization_code", client_id := cfg.clientId,
        client_secret := cfg.clientSecret, code := q.code.getD "",
        redirect_uri := cfg.redirectURI }
    match exResp with
    | FetchResult.transportError =>
        { exchangeCall := some form, profileCall := none,
          response := Response.thrown, sessionToken := sess }
    | FetchResult.ok _ Body.notJSON =>
        { exchangeCall := some form, profileCall := none,
          response := Response.thrown, sessionToken := sess }
    | FetchResult.ok _ (Body.json data) =>
        match data.getProp "access_token" with
        | none =>
            { exchangeCall := some form, profileCall := none,
              response := Response.thrown, sessionToken := sess }
        | some tok =>
            let gu := P0.getUserInfo tok pResp
            { exchangeCall := some form, profileCall := some gu.1,
              response := gu.2, sessionToken := tok }

/-- Result of one run of the /listrooms handler in part_000: the list of
response outcomes produced in order (the handler can send twice because
the unauthenticated branch does not return) and the rooms GET issued. -/
structure P0RoomsResult where
  sends : List Response
  call : Option GetRequest

/-- app.get("/listrooms") from part_000 (lines 259 to 331).  When the
session token is loosely equal to undefined the handler sends the body
"/" but does not return; in every case it then issues the rooms GET with
the token concatenated into the bearer header and renders list-rooms.ejs
with data.items, with no status check and no field check; a rejected
fetch or unparseable body throws, as does the unguarded items access
when data is null. -/
def P0.listroomsHandler (sessToken : JsVal) (resp : FetchResult) : P0RoomsResult :=
  let pre : List Response :=
    if sessToken.looseUndef then [Response.send "/"] else []
  let req : GetRequest := { url := roomsURL, bearer := "Bearer " ++ sessToken.jsToString }
  match resp with
  | FetchResult.transportError => { sends := pre ++ [Response.thrown], call := some req }
  | FetchResult.ok _ Body.notJSON => { sends := pre ++ [Response.thrown], call := some req }
  | FetchResult.ok _ (Body.json data) =>
      match data.getProp "items" with
      | none => { sends := pre ++ [Response.thrown], call := some req }
      | some items =>
          { sends := pre ++ [Response.render "list-rooms.ejs" items], call := some req }

/-! Shared helper lemmas. -/

theorem send_ne_of_ne {a b : String} (h : a ≠ b) :
    Response.send a ≠ Response.send b := by
  intro he
  injection he with he2
  exact h he2

/-- Any run of the part_001 /oauth handler in which the error branch is
taken issues no outbound call, leaves the session untouched and sends one
of the four literal error pages. -/
theorem oauth_error_no_calls (cfg : Config) (q : Query) (sess : JsVal)
    (ex p : FetchResult) (h : qtruthy q.error = true) :
    ∃ pg : String, P1.oauthHandler cfg q sess ex p = noCall (Response.send pg) sess := by
  unfold P1.oauthHandler
  rw [if_pos h]
  split
  · exact ⟨accessDeniedPage, rfl⟩
  · split
    · exact ⟨invalidScopePage, rfl⟩
    · split
      · exact ⟨serverErrorPage, rfl⟩
      · exact ⟨unknownErrorPage, rfl⟩

/-- Any run of the part_001 /oauth handler whose state parameter is not
the expected state issues no outbound call and leaves the session
untouched. -/
theorem oauth_noexchange (cfg : Config) (q : Query) (sess : JsVal)
    (ex p : FetchResult) (h : q.state ≠ some cfg.state) :
    ∃ pg : String, P1.oauthHandler cfg q sess ex p = noCall (Response.send pg) sess := by
  by_cases he : qtruthy q.error = true
  · exact oauth_error_no_calls cfg q sess ex p he
  · unfold P1.oauthHandler
    rw [if_neg he]
    by_cases hcs : (!qtruthy q.code || !qtruthy q.state) = true
    · rw [if_pos hcs]
      exact ⟨missingParamsPage, rfl⟩
    · rw [if_neg hcs, if_pos h]
      exact ⟨stateMismatchPage, rfl⟩

/-- When the three precondition checks of the part_001 /oauth handler
pass, the handler issues exactly the authorization-code POST and defers
everything else to the exchange callback. -/
theorem oauth_success_region (cfg : Config) (q : Query) (sess : JsVal)
    (ex p : FetchResult) (c : String)
    (herr : qtruthy q.error = false) (hcode : q.code = some c) (hcne : c ≠ "")
    (hstate : q.state = some cfg.state) (hstne : cfg.state ≠ "") :
    P1.oauthHandler cfg q sess ex p =
      { exchangeCall := some
          { grant_type := "authorization_code",
            client_id := cfg.clientId,
            client_secret := cfg.clientSecret,
            code := c,
            redirect_uri := cfg.redirectURI },
        profileCall := (P1.exchangeCallback sess ex p).2.2,
        response := (P1.exchangeCallback sess ex p).1,
        sessionToken := (P1.exchangeCallback sess ex p).2.1 } := by
  have h1 : qtruthy (some c) = true := by simp [qtruthy, hcne]
  have h2 : qtruthy (some cfg.state) = true := by simp [qtruthy, hstne]
  unfold P1.oauthHandler
  simp [herr, hcode, hstate, h1, h2]

/-- Claim C1, as frozen, is refuted: a callback whose state parameter
differs from the expected state but which also carries a truthy error
parameter fails with the AuthorizationDenied page, not the StateMismatch
page, because the error classification runs first. -/
theorem C1_counterexample :
    (P1.oauthHandler
      { clientId := "CID", clientSecret := "SEC",
        redirectURI := "http://localhost:8080/oauth", state := "EXPECTED" }
      { error := some "access_denied", code := some "c", state := some "WRONG" }
      JsVal.vundef FetchResult.transportError FetchResult.transportError).response =
      Response.send accessDeniedPage ∧
    Response.send accessDeniedPage ≠ Response.send stateMismatchPage :=
  ⟨rfl, send_ne_of_ne (by decide)⟩

/-- Claim C1, amended: for every callback request whose state parameter
differs from the expected state, the handler issues no POST to the token
endpoint and performs no session mutation; when in addition the request
carries no truthy error parameter and both code and state are truthy, it
fails with the StateMismatch page, hence before any code is
transmitted. -/
theorem C1_state_mismatch_guard (cfg : Config) (q : Query) (sess : JsVal)
    (ex p : FetchResult) (h : q.state ≠ some cfg.state) :
    (P1.oauthHandler cfg q sess ex p).exchangeCall = none ∧
    (P1.oauthHandler cfg q sess ex p).sessionToken = sess ∧
    (qtruthy q.error = false → qtruthy q.code = true → qtruthy q.state = true →
      (P1.oauthHandler cfg q sess ex p).response = Response.send stateMismatchPage) := by
  obtain ⟨pg, hpg⟩ := oauth_noexchange cfg q sess ex p h
  refine ⟨by rw [hpg]; rfl, by rw [hpg]; rfl, ?_⟩
  intro herr hcode hstquery
  unfold P1.oauthHandler
  rw [if_neg (by rw [herr]; exact Bool.false_ne_true)]
  rw [if_neg (by rw [hcode, hstquery]; simp)]
  rw [if_pos h]
  rfl

/-- Witness for C1_state_mismatch_guard at a concrete mismatching
callback. -/
theorem C1_state_mismatch_guard_witness :
    (P1.oauthHandler
      { clientId := "CID", clientSecret := "SEC",
        redirectURI := "http://localhost:8080/oauth", state := "EXPECTED" }
      { error := none, code := some "abc", state := some "WRONG" }
      JsVal.vundef FetchResult.transportError FetchResult.transportError).exchangeCall = none ∧
    (P1.oauthHandler
      { clientId := "CID", clientSecret := "SEC",
        redirectURI := "http://localhost:8080/oauth", state := "EXPECTED" }
      { error := none, code := some "abc", state := some "WRONG" }
      JsVal.vundef FetchResult.transportError FetchResult.transportError).sessionToken =
      JsVal.vundef ∧
    (P1.oauthHandler
      { clientId := "CID", clientSecret := "SEC",
        redirectURI := "http://localhost:8080/oauth", state := "EXPECTED" }
      { error := none, code := some "abc", state := some "WRONG" }
      JsVal.vundef FetchResult.transportError FetchResult.transportError).response =
      Response.send stateMismatchPage := by
  have h := C1_state_mismatch_guard
    { clientId := "CID", clientSecret := "SEC",
      redirectURI := "http://localhost:8080/oauth", state := "EXPECTED" }
    { error := none, code := some "abc", state := some "WRONG" }
    JsVal.vundef FetchResult.transportError FetchResult.transportError (by decide)
  exact ⟨h.1, h.2.1, h.2.2 rfl rfl rfl⟩

/-- Claim C2, code-bug evidence.  On the same callback and the same
200-status token response missing expires_in, refresh_token and
refresh_token_expires_in, the part_001 handler sends the
MalformedTokenResponse page and leaves the previously bound session
token unchanged, while the part_000 handler (whose validation block is
commented out in the source) overwrites the session token with the
incomplete access_token and proceeds to render the profile page. -/
theorem C2_missing_fields_eval :
    (P1.oauthHandler
      { clientId := "CID", clientSecret := "SEC",
        redirectURI := "http://localhost:8080/oauth", state := "S" }
      { error := none, code := some "abc", state := some "S" }
      (JsVal.vstr "OLD")
      (FetchResult.ok 200 (Body.json (JsVal.vobj [("access_token", JsVal.vstr "X")])))
      (FetchResult.ok 200 (Body.json (JsVal.vobj [("displayName", JsVal.vstr "D")])))).response =
      Response.send couldNotParsePage ∧
    (P1.oauthHandler
      { clientId := "CID", clientSecret := "SEC",
        redirectURI := "http://localhost:8080/oauth", state := "S" }
      { error := none, code := some "abc", state := some "S" }
      (JsVal.vstr "OLD")
      (FetchResult.ok 200 (Body.json (JsVal.vobj [("access_token", JsVal.vstr "X")])))
      (FetchResult.ok 200 (Body.json (JsVal.vobj [("displayName", JsVal.vstr "D")])))).sessionToken =
      JsVal.vstr "OLD" ∧
    (P0.oauthHandler
      { clientId := "CID", clientSecret := "SEC",
        redirectURI := "http://localhost:8080/oauth", state := "S" }
      { error := none, code := some "abc", state := some "S" }
      (JsVal.vstr "OLD")
      (FetchResult.ok 200 (Body.json (JsVal.vobj [("access_token", JsVal.vstr "X")])))
      (FetchResult.ok 200 (Body.json (JsVal.vobj [("displayName", JsVal.vstr "D")])))).sessionToken =
      JsVal.vstr "X" ∧
    JsVal.vstr "X" ≠ JsVal.vstr "OLD" ∧
    (P0.oauthHandler
      { clientId := "CID", clientSecret := "SEC",
        redirectURI := "http://localhost:8080/oauth", state := "S" }
      { error := none, code := some "abc", state := some "S" }
      (JsVal.vstr "OLD")
      (FetchResult.ok 200 (Body.json (JsVal.vobj [("access_token", JsVal.vstr "X")])))
      (FetchResult.ok 200 (Body.json (JsVal.vobj [("displayName", JsVal.vstr "D")])))).response =
      Response.render "display-name.ejs" (JsVal.vstr "D") := by
  refine ⟨rfl, rfl, rfl, ?_, rfl⟩
  intro hh
  injection hh with hs2
  exact absurd hs2 (by decide)

/-- Claim C3: on a well-formed matching callback whose token response is
a complete bundle, the part_001 handler issues the authorization-code
POST carrying the received code and the client credentials, and the
session afterwards holds exactly the access_token of the bundle. -/
theorem C3_success_flow (cfg : Config) (q : Query) (sess : JsVal) (p : FetchResult)
    (c : String) (j : JsVal)
    (herr : qtruthy q.error = false) (hcode : q.code = some c) (hcne : c ≠ "")
    (hstate : q.state = some cfg.state) (hstne : cfg.state ≠ "")
    (hj : j.truthy = true)
    (ht1 : (JsVal.get j "access_token").truthy = true)
    (ht2 : (JsVal.get j "expires_in").truthy = true)
    (ht3 : (JsVal.get j "refresh_token").truthy = true)
    (ht4 : (JsVal.get j "refresh_token_expires_in").truthy = true) :
    (P1.oauthHandler cfg q sess (FetchResult.ok 200 (Body.json j)) p).exchangeCall =
      some
        { grant_type := "authorization_code",
          client_id := cfg.clientId,
          client_secret := cfg.clientSecret,
          code := c,
          redirect_uri := cfg.redirectURI } ∧
    (P1.oauthHandler cfg q sess (FetchResult.ok 200 (Body.json j)) p).sessionToken =
      JsVal.get j "access_token" := by
  rw [oauth_success_region cfg q sess (FetchResult.ok 200 (Body.json j)) p c
    herr hcode hcne hstate hstne]
  refine ⟨rfl, ?_⟩
  show (P1.exchangeCallback sess (FetchResult.ok 200 (Body.json j)) p).2.1 =
    JsVal.get j "access_token"
  unfold P1.exchangeCallback
  simp [hj, ht1, ht2, ht3, ht4]

/-- Witness for C3_success_flow at the scenario of the specification:
code abc123 and the bundle with access_token T1. -/
theorem C3_success_flow_witness :
    (P1.oauthHandler
      { clientId := "CID", clientSecret := "SEC",
        redirectURI := "http://localhost:8080/oauth", state := "S" }
      { error := none, code := some "abc123", state := some "S" }
      JsVal.vundef
      (FetchResult.ok 200 (Body.json (JsVal.vobj
        [("access_token", JsVal.vstr "T1"), ("expires_in", JsVal.vnum 1209600),
         ("refresh_token", JsVal.vstr "R1"), ("refresh_token_expires_in", JsVal.vnum 7776000)])))
      (FetchResult.ok 200 (Body.json (JsVal.vobj [("displayName", JsVal.vstr "D")])))).exchangeCall =
      some
        { grant_type := "authorization_code",
          client_id := "CID",
          client_secret := "SEC",
          code := "abc123",
          redirect_uri := "http://localhost:8080/oauth" } ∧
    (P1.oauthHandler
      { clientId := "CID", clientSecret := "SEC",
        redirectURI := "http://localhost:8080/oauth", state := "S" }
      { error := none, code := some "abc123", state := some "S" }
      JsVal.vundef
      (FetchResult.ok 200 (Body.json (JsVal.vobj
        [("access_token", JsVal.vstr "T1"), ("expires_in", JsVal.vnum 1209600),
         ("refresh_token", JsVal.vstr "R1"), ("refresh_token_expires_in", JsVal.vnum 7776000)])))
      (FetchResult.ok 200 (Body.json (JsVal.vobj [("displayName", JsVal.vstr "D")])))).sessionToken =
      JsVal.vstr "T1" := by
  have h := C3_success_flow
    { clientId := "CID", clientSecret := "SEC",
      redirectURI := "http://localhost:8080/oauth", state := "S" }
    { error := none, code := some "abc123", state := some "S" }
    JsVal.vundef
    (FetchResult.ok 200 (Body.json (JsVal.vobj [("displayName", JsVal.vstr "D")])))
    "abc123"
    (JsVal.vobj
      [("access_token", JsVal.vstr "T1"), ("expires_in", JsVal.vnum 1209600),
       ("refresh_token", JsVal.vstr "R1"), ("refresh_token_expires_in", JsVal.vnum 7776000)])
    rfl rfl (by decide) rfl (by decide) rfl rfl rfl rfl rfl
  exact ⟨h.1, h.2⟩

/-- Claim C4, as frozen, is refuted: a callback carrying the error query
parameter with the empty-string value is falsy in JavaScript, so the
classification is skipped entirely, and with a matching code and state
the handler proceeds to issue the token-endpoint POST. -/
theorem C4_counterexample :
    (P1.oauthHandler
      { clientId := "CID", clientSecret := "SEC",
        redirectURI := "http://localhost:8080/oauth", state := "S" }
      { error := some "", code := some "abc", state := some "S" }
      JsVal.vundef
      (FetchResult.ok 200 (Body.json (JsVal.vobj
        [("access_token", JsVal.vstr "T1"), ("expires_in", JsVal.vnum 1209600),
         ("refresh_token", JsVal.vstr "R1"), ("refresh_token_expires_in", JsVal.vnum 7776000)])))
      (FetchResult.ok 200 (Body.json (JsVal.vobj [("displayName", JsVal.vstr "D")])))).exchangeCall =
      some
        { grant_type := "authorization_code",
          client_id := "CID",
          client_secret := "SEC",
          code := "abc",
          redirect_uri := "http://localhost:8080/oauth" } ∧
    (P1.oauthHandler
      { clientId := "CID", clientSecret := "SEC",
        redirectURI := "http://localhost:8080/oauth", state := "S" }
      { error := some "", code := some "abc", state := some "S" }
      JsVal.vundef
      (FetchResult.ok 200 (Body.json (JsVal.vobj
        [("access_token", JsVal.vstr "T1"), ("expires_in", JsVal.vnum 1209600),
         ("refresh_token", JsVal.vstr "R1"), ("refresh_token_expires_in", JsVal.vnum 7776000)])))
      (FetchResult.ok 200 (Body.json (JsVal.vobj [("displayName", JsVal.vstr "D")])))).exchangeCall ≠
      none := by
  refine ⟨rfl, ?_⟩
  intro hn
  rw [show (P1.oauthHandler
      { clientId := "CID", clientSecret := "SEC",
        redirectURI := "http://localhost:8080/oauth", state := "S" }
      { error := some "", code := some "abc", state := some "S" }
      JsVal.vundef
      (FetchResult.ok 200 (Body.json (JsVal.vobj
        [("access_token", JsVal.vstr "T1"), ("expires_in", JsVal.vnum 1209600),
         ("refresh_token", JsVal.vstr "R1"), ("refresh_token_expires_in", JsVal.vnum 7776000)])))
      (FetchResult.ok 200 (Body.json (JsVal.vobj [("displayName", JsVal.vstr "D")])))).exchangeCall =
      some
        { grant_type := "authorization_code",
          client_id := "CID",
          client_secret := "SEC",
          code := "abc",
          redirect_uri := "http://localhost:8080/oauth" } from rfl] at hn
  exact Option.noConfusion hn

/-- Claim C4, amended: for every callback carrying a truthy error query
parameter, the handler issues no network call and performs no session
mutation, classifies the error into four kinds each with its own literal
page, and the four pages are pairwise distinct. -/
theorem C4_error_classification (cfg : Config) (q : Query) (sess : JsVal)
    (ex p : FetchResult) (h : qtruthy q.error = true) :
    (P1.oauthHandler cfg q sess ex p).exchangeCall = none ∧
    (P1.oauthHandler cfg q sess ex p).profileCall = none ∧
    (P1.oauthHandler cfg q sess ex p).sessionToken = sess ∧
    (q.error = some "access_denied" →
      (P1.oauthHandler cfg q sess ex p).response = Response.send accessDeniedPage) ∧
    (q.error = some "invalid_scope" →
      (P1.oauthHandler cfg q sess ex p).response = Response.send invalidScopePage) ∧
    (q.error = some "server_error" →
      (P1.oauthHandler cfg q sess ex p).response = Response.send serverErrorPage) ∧
    (q.error ≠ some "access_denied" → q.error ≠ some "invalid_scope" →
      q.error ≠ some "server_error" →
      (P1.oauthHandler cfg q sess ex p).response = Response.send unknownErrorPage) ∧
    (accessDeniedPage ≠ invalidScopePage ∧ accessDeniedPage ≠ serverErrorPage ∧
      accessDeniedPage ≠ unknownErrorPage ∧ invalidScopePage ≠ serverErrorPage ∧
      invalidScopePage ≠ unknownErrorPage ∧ serverErrorPage ≠ unknownErrorPage) := by
  obtain ⟨pg, hpg⟩ := oauth_error_no_calls cfg q sess ex p h
  refine ⟨by rw [hpg]; rfl, by rw [hpg]; rfl, by rw [hpg]; rfl, ?_, ?_, ?_, ?_,
    by decide, by decide, by decide, by decide, by decide, by decide⟩
  · intro ha
    unfold P1.oauthHandler
    rw [if_pos h, if_pos ha]
    rfl
  · intro ha
    unfold P1.oauthHandler
    rw [if_pos h, if_neg (by rw [ha]; decide), if_pos ha]
    rfl
  · intro ha
    unfold P1.oauthHandler
    rw [if_pos h, if_neg (by rw [ha]; decide), if_neg (by rw [ha]; decide), if_pos ha]
    rfl
  · intro h1 h2 h3
    unfold P1.oauthHandler
    rw [if_pos h, if_neg h1, if_neg h2, if_neg h3]
    rfl

/-- Witness for C4_error_classification at a concrete access_denied
callback. -/
theorem C4_error_classification_witness :
    (P1.oauthHandler
      { clientId := "CID", clientSecret := "SEC",
        redirectURI := "http://localhost:8080/oauth", state := "S" }
      { error := some "access_denied", code := none, state := none }
      JsVal.vundef FetchResult.transportError FetchResult.transportError).exchangeCall = none ∧
    (P1.oauthHandler
      { clientId := "CID", clientSecret := "SEC",
        redirectURI := "http://localhost:8080/oauth", state := "S" }
      { error := some "access_denied", code := none, state := none }
      JsVal.vundef FetchResult.transportError FetchResult.transportError).response =
      Response.send accessDeniedPage := by
  have h := C4_error_classification
    { clientId := "CID", clientSecret := "SEC",
      redirectURI := "http://localhost:8080/oauth", state := "S" }
    { error := some "access_denied", code := none, state := none }
    JsVal.vundef FetchResult.transportError FetchResult.transportError (by decide)
  exact ⟨h.1, h.2.2.2.1 rfl⟩

/-- Claim C5, as frozen, is refuted: when the token endpoint answers 200
with a body that is not parseable JSON, JSON.parse throws inside the
response callback and the exception escapes uncaught; no error page is
rendered. -/
theorem C5_counterexample :
    (P1.oauthHandler
      { clientId := "CID", clientSecret := "SEC",
        redirectURI := "http://localhost:8080/oauth", state := "S" }
      { error := none, code := some "abc", state := some "S" }
      JsVal.vundef (FetchResult.ok 200 Body.notJSON)
      FetchResult.transportError).response = Response.thrown ∧
    Response.thrown ≠ Response.send couldNotParsePage := by
  refine ⟨rfl, ?_⟩
  intro hh
  exact Response.noConfusion hh

/-- Claim C5, amended: on a callback that reaches the exchange, a
transport failure and every non-200 status other than 400 and 401 yield
the generic retry page; a 400 whose body parses to a value on which the
message access does not throw (everything but null) yields the
BadRequest page carrying the string coercion of that message value, the
literal text undefined when the field is absent; a 400 body parsing to
JSON null makes the unguarded responsePayload.message access throw an
uncaught TypeError; 401 yields the credential page; and a body that is
not parseable JSON (under status 400 or 200) makes the handler throw an
uncaught exception. -/
theorem C5_status_classification (cfg : Config) (q : Query) (sess : JsVal)
    (p : FetchResult) (c : String)
    (herr : qtruthy q.error = false) (hcode : q.code = some c) (hcne : c ≠ "")
    (hstate : q.state = some cfg.state) (hstne : cfg.state ≠ "") :
    (P1.oauthHandler cfg q sess FetchResult.transportError p).response =
      Response.send tokenFetchErrorPage ∧
    (∀ (payload m : JsVal), JsVal.getProp payload "message" = some m →
      (P1.oauthHandler cfg q sess (FetchResult.ok 400 (Body.json payload)) p).response =
        Response.send (badRequestPage m.jsToString)) ∧
    (P1.oauthHandler cfg q sess (FetchResult.ok 400 (Body.json JsVal.vnull)) p).response =
      Response.thrown ∧
    (P1.oauthHandler cfg q sess (FetchResult.ok 400 Body.notJSON) p).response =
      Response.thrown ∧
    (∀ b : Body,
      (P1.oauthHandler cfg q sess (FetchResult.ok 401 b) p).response =
        Response.send authErrorPage) ∧
    (∀ (s : Nat) (b : Body), s ≠ 200 → s ≠ 400 → s ≠ 401 →
      (P1.oauthHandler cfg q sess (FetchResult.ok s b) p).response =
        Response.send tokenFetchErrorPage) ∧
    (P1.oauthHandler cfg q sess (FetchResult.ok 200 Body.notJSON) p).response =
      Response.thrown := by
  refine ⟨?_, ?_, ?_, ?_, ?_, ?_, ?_⟩
  · rw [oauth_success_region cfg q sess FetchResult.transportError p c
      herr hcode hcne hstate hstne]
    rfl
  · intro payload m hm
    rw [oauth_success_region cfg q sess (FetchResult.ok 400 (Body.json payload)) p c
      herr hcode hcne hstate hstne]
    show (P1.exchangeCallback sess (FetchResult.ok 400 (Body.json payload)) p).1 =
      Response.send (badRequestPage m.jsToString)
    unfold P1.exchangeCallback
    simp [hm]
  · rw [oauth_success_region cfg q sess (FetchResult.ok 400 (Body.json JsVal.vnull)) p c
      herr hcode hcne hstate hstne]
    rfl
  · rw [oauth_success_region cfg q sess (FetchResult.ok 400 Body.notJSON) p c
      herr hcode hcne hstate hstne]
    rfl
  · intro b
    rw [oauth_success_region cfg q sess (FetchResult.ok 401 b) p c
      herr hcode hcne hstate hstne]
    cases b <;> rfl
  · intro s b hs200 hs400 hs401
    rw [oauth_success_region cfg q sess (FetchResult.ok s b) p c
      herr hcode hcne hstate hstne]
    show (P1.exchangeCallback sess (FetchResult.ok s b) p).1 =
      Response.send tokenFetchErrorPage
    unfold P1.exchangeCallback
    simp [hs200, hs400, hs401]
  · rw [oauth_success_region cfg q sess (FetchResult.ok 200 Body.notJSON) p c
      herr hcode hcne hstate hstne]
    rfl

/-- Witness for C5_status_classification at a concrete callback, with a
400 response carrying a message, a 400 response whose body parses to
JSON null, a 500 response, and a 200 response with an unparseable
body. -/
theorem C5_status_classification_witness :
    (P1.oauthHandler
      { clientId := "CID", clientSecret := "SEC",
        redirectURI := "http://localhost:8080/oauth", state := "S" }
      { error := none, code := some "abc", state := some "S" }
      JsVal.vundef
      (FetchResult.ok 400 (Body.json (JsVal.vobj [("message", JsVal.vstr "bad")])))
      FetchResult.transportError).response =
      Response.send (badRequestPage "bad") ∧
    (P1.oauthHandler
      { clientId := "CID", clientSecret := "SEC",
        redirectURI := "http://localhost:8080/oauth", state := "S" }
      { error := none, code := some "abc", state := some "S" }
      JsVal.vundef (FetchResult.ok 400 (Body.json JsVal.vnull))
      FetchResult.transportError).response = Response.thrown ∧
    (P1.oauthHandler
      { clientId := "CID", clientSecret := "SEC",
        redirectURI := "http://localhost:8080/oauth", state := "S" }
      { error := none, code := some "abc", state := some "S" }
      JsVal.vundef (FetchResult.ok 500 Body.notJSON)
      FetchResult.transportError).response =
      Response.send tokenFetchErrorPage ∧
    (P1.oauthHandler
      { clientId := "CID", clientSecret := "SEC",
        redirectURI := "http://localhost:8080/oauth", state := "S" }
      { error := none, code := some "abc", state := some "S" }
      JsVal.vundef (FetchResult.ok 200 Body.notJSON)
      FetchResult.transportError).response = Response.thrown := by
  have h := C5_status_classification
    { clientId := "CID", clientSecret := "SEC",
      redirectURI := "http://localhost:8080/oauth", state := "S" }
    { error := none, code := some "abc", state := some "S" }
    JsVal.vundef FetchResult.transportError "abc"
    rfl rfl (by decide) rfl (by decide)
  exact ⟨h.2.1 (JsVal.vobj [("message", JsVal.vstr "bad")]) (JsVal.vstr "bad") rfl,
    h.2.2.1,
    h.2.2.2.2.2.1 500 Body.notJSON (by decide) (by decide) (by decide),
    h.2.2.2.2.2.2⟩

/-- Claim C6, code-bug evidence.  On a request to /listrooms whose
session holds no token, the part_001 handler issues the rooms GET with
the header Bearer undefined and renders the room list instead of
redirecting; the part_000 handler sends the body "/" (not a redirect)
and, because that branch does not return, still issues the same GET. -/
theorem C6_unauthenticated_call_eval :
    (P1.listroomsHandler JsVal.vundef
      (FetchResult.ok 200 (Body.json (JsVal.vobj [("items", JsVal.vobj [])])))).call =
      some { url := "https://webexapis.com/v1/rooms", bearer := "Bearer undefined" } ∧
    (P1.listroomsHandler JsVal.vundef
      (FetchResult.ok 200 (Body.json (JsVal.vobj [("items", JsVal.vobj [])])))).response =
      Response.render "list-rooms.ejs" (JsVal.vobj []) ∧
    (P1.listroomsHandler JsVal.vundef
      (FetchResult.ok 200 (Body.json (JsVal.vobj [("items", JsVal.vobj [])])))).response.isRedirect =
      false ∧
    (P0.listroomsHandler JsVal.vundef
      (FetchResult.ok 200 (Body.json (JsVal.vobj [("items", JsVal.vobj [])])))).call =
      some { url := "https://webexapis.com/v1/rooms", bearer := "Bearer undefined" } ∧
    (P0.listroomsHandler JsVal.vundef
      (FetchResult.ok 200 (Body.json (JsVal.vobj [("items", JsVal.vobj [])])))).sends =
      [Response.send "/", Response.render "list-rooms.ejs" (JsVal.vobj [])] :=
  ⟨rfl, rfl, rfl, rfl, rfl⟩

/-- Claim C7, as frozen, is refuted: the /logout route redirects to the
logout endpoint with only a token parameter; the redirect URL contains no
goto parameter at all (the goto form exists only in the uncalled
getLogoutURL helper of server.js). -/
theorem C7_counterexample :
    (logoutHandler
      { clientId := "CID", clientSecret := "SEC",
        redirectURI := "http://localhost:8080/oauth", state := "S" }
      (JsVal.vstr "T")).redirect =
      "https://idbroker.webex.com/idb/oauth2/v1/logout?token=T" ∧
    containsRun "goto".toList
      ("https://idbroker.webex.com/idb/oauth2/v1/logout?token=T").toList = false :=
  ⟨rfl, by decide⟩

/-- Claim C7, amended: for every request to /logout, the handler
redirects the user agent to logout_endpoint?token=<session token> (the
root URL obtained by stripping the last five characters off redirect_uri
is computed but only logged, and no goto parameter is included), and the
session record is destroyed unconditionally. -/
theorem C7_logout_contract (cfg : Config) (t : JsVal) :
    (logoutHandler cfg t).redirect = logoutBase ++ t.jsToString ∧
    (logoutHandler cfg t).destroyed = true ∧
    (logoutHandler cfg t).log =
      "rootURL is " ++ cfg.redirectURI.take (cfg.redirectURI.length - 5) :=
  ⟨rfl, rfl, rfl⟩

/-- Claim C8: when the exchange succeeds with a complete bundle but the
/people/me response parses to an object without a truthy displayName, the
profile step fails with the account-details error page while the session
still holds exactly the access_token of the bundle, and the profile GET
was made with that token. -/
theorem C8_profile_failure_isolated (cfg : Config) (q : Query) (sess : JsVal)
    (c : String) (j pj : JsVal)
    (herr : qtruthy q.error = false) (hcode : q.code = some c) (hcne : c ≠ "")
    (hstate : q.state = some cfg.state) (hstne : cfg.state ≠ "")
    (hj : j.truthy = true)
    (ht1 : (JsVal.get j "access_token").truthy = true)
    (ht2 : (JsVal.get j "expires_in").truthy = true)
    (ht3 : (JsVal.get j "refresh_token").truthy = true)
    (ht4 : (JsVal.get j "refresh_token_expires_in").truthy = true)
    (hpj : pj.truthy = true)
    (hdn : (JsVal.get pj "displayName").truthy = false) :
    (P1.oauthHandler cfg q sess (FetchResult.ok 200 (Body.json j))
      (FetchResult.ok 200 (Body.json pj))).sessionToken = JsVal.get j "access_token" ∧
    (P1.oauthHandler cfg q sess (FetchResult.ok 200 (Body.json j))
      (FetchResult.ok 200 (Body.json pj))).response = Response.send accountDetailsPage ∧
    (P1.oauthHandler cfg q sess (FetchResult.ok 200 (Body.json j))
      (FetchResult.ok 200 (Body.json pj))).profileCall =
      some { url := peopleURL,
             bearer := "Bearer " ++ (JsVal.get j "access_token").jsToString } := by
  rw [oauth_success_region cfg q sess (FetchResult.ok 200 (Body.json j))
    (FetchResult.ok 200 (Body.json pj)) c herr hcode hcne hstate hstne]
  refine ⟨?_, ?_, ?_⟩
  · show (P1.exchangeCallback sess (FetchResult.ok 200 (Body.json j))
      (FetchResult.ok 200 (Body.json pj))).2.1 = JsVal.get j "access_token"
    unfold P1.exchangeCallback
    simp [hj, ht1, ht2, ht3, ht4]
  · show (P1.exchangeCallback sess (FetchResult.ok 200 (Body.json j))
      (FetchResult.ok 200 (Body.json pj))).1 = Response.send accountDetailsPage
    unfold P1.exchangeCallback
    simp [hj, ht1, ht2, ht3, ht4]
    unfold P1.getUserInfo
    simp [hpj, hdn]
  · show (P1.exchangeCallback sess (FetchResult.ok 200 (Body.json j))
      (FetchResult.ok 200 (Body.json pj))).2.2 =
      some { url := peopleURL,
             bearer := "Bearer " ++ (JsVal.get j "access_token").jsToString }
    unfold P1.exchangeCallback
    simp [hj, ht1, ht2, ht3, ht4]
    rfl

/-- Witness for C8_profile_failure_isolated: complete bundle with token
T1, profile object without displayName. -/
theorem C8_profile_failure_isolated_witness :
    (P1.oauthHandler
      { clientId := "CID", clientSecret := "SEC",
        redirectURI := "http://localhost:8080/oauth", state := "S" }
      { error := none, code := some "abc123", state := some "S" }
      JsVal.vundef
      (FetchResult.ok 200 (Body.json (JsVal.vobj
        [("access_token", JsVal.vstr "T1"), ("expires_in", JsVal.vnum 1209600),
         ("refresh_token", JsVal.vstr "R1"), ("refresh_token_expires_in", JsVal.vnum 7776000)])))
      (FetchResult.ok 200 (Body.json (JsVal.vobj [("id", JsVal.vstr "p77")])))).sessionToken =
      JsVal.vstr "T1" ∧
    (P1.oauthHandler
      { clientId := "CID", clientSecret := "SEC",
        redirectURI := "http://localhost:8080/oauth", state := "S" }
      { error := none, code := some "abc123", state := some "S" }
      JsVal.vundef
      (FetchResult.ok 200 (Body.json (JsVal.vobj
        [("access_token", JsVal.vstr "T1"), ("expires_in", JsVal.vnum 1209600),
         ("refresh_token", JsVal.vstr "R1"), ("refresh_token_expires_in", JsVal.vnum 7776000)])))
      (FetchResult.ok 200 (Body.json (JsVal.vobj [("id", JsVal.vstr "p77")])))).response =
      Response.send accountDetailsPage := by
  have h := C8_profile_failure_isolated
    { clientId := "CID", clientSecret := "SEC",
      redirectURI := "http://localhost:8080/oauth", state := "S" }
    { error := none, code := some "abc123", state := some "S" }
    JsVal.vundef "abc123"
    (JsVal.vobj
      [("access_token", JsVal.vstr "T1"), ("expires_in", JsVal.vnum 1209600),
       ("refresh_token", JsVal.vstr "R1"), ("refresh_token_expires_in", JsVal.vnum 7776000)])
    (JsVal.vobj [("id", JsVal.vstr "p77")])
    rfl rfl (by decide) rfl (by decide) rfl rfl rfl rfl rfl rfl rfl
  exact ⟨h.1, h.2.1⟩

/-- Claim C9: for any session token value, both variants of the home
routes respond identically: /index.html sends the page compiled at
startup from index.ejs with the authorization link injected, and / sends
a redirect to /index.html; the session-token branch of the part_000
handler can change only the logged line, never the response. -/
theorem C9_home_page_invariant (st : String) (t t2 : JsVal) :
    (P0.indexHandler st t).response =
      Response.render "index.ejs" (JsVal.vstr (P0.initiateURL st)) ∧
    (P0.indexHandler st t).response = (P0.indexHandler st t2).response ∧
    P0.rootResponse = Response.redirect "/index.html" ∧
    P1.indexResponse st = Response.render "index.ejs" (JsVal.vstr (P1.initiateURL st)) ∧
    P1.rootResponse = Response.redirect "/index.html" :=
  ⟨rfl, rfl, rfl, rfl, rfl⟩

/-- Claim C10: the /logout redirect URL is built by raw string
concatenation, so any token string appears verbatim and unencoded after
token=, a session without a token produces the literal text
token=undefined, and the session is destroyed in both situations. -/
theorem C10_logout_raw_token (cfg : Config) (tok : String) :
    (logoutHandler cfg (JsVal.vstr tok)).redirect = logoutBase ++ tok ∧
    (logoutHandler cfg JsVal.vundef).redirect =
      "https://idbroker.webex.com/idb/oauth2/v1/logout?token=undefined" ∧
    (logoutHandler cfg JsVal.vundef).destroyed = true ∧
    (logoutHandler cfg (JsVal.vstr tok)).destroyed = true :=
  ⟨rfl, rfl, rfl, rfl⟩
